import Mathlib

/-!
Verification of the goblet HTTP retry layer and GitHub token source layer.

The definitions below are a shallow embedding of the Go sources:
  src/http_client.go        (DoWithRetry, shouldRetry, parseRetryAfter)
  src/github/token.go       (TokenSource, MultiTokenSource and constructors)
  src/github/logging.go     (truncateString)
Durations are modelled as Int nanoseconds, exactly like Go time.Duration.
HTTP status codes are modelled as Int, like Go int.
-/

namespace Goblet

/-- One nanosecond count per second, as in Go time.Second. -/
def second : Int := 1000000000

/-- Constant maxRetries from src/http_client.go line 10. -/
def maxRetries : Nat := 3

/-- Constant maxRetryAfter from src/http_client.go line 11: 60 * time.Second. -/
def maxRetryAfter : Int := 60 * second

/-- Embedding of shouldRetry, src/http_client.go lines 61 to 78.
Mirrors the three Go conditions in order: 403, 429, then the 5xx range
excluding 501. -/
def shouldRetry (statusCode : Int) : Bool :=
  if statusCode = 403 then true
  else if statusCode = 429 then true
  else if 500 ≤ statusCode ∧ statusCode < 600 ∧ statusCode ≠ 501 then true
  else false

/-- The magnitude of the int64 range bounds, 2 to the 63rd. -/
def int64Bound : Int := 9223372036854775808

/-- Reduction of an unbounded integer to the int64 it denotes under the
wrapping two-complement arithmetic Go uses for time.Duration products. -/
def wrapInt64 (x : Int) : Int :=
  (x + int64Bound) % (2 * int64Bound) - int64Bound

/-- Abstraction of a Retry-After header string by the outcome of the two
parses attempted by parseRetryAfter (src/http_client.go lines 82 to 101):
the empty string; a string strconv.Atoi accepts, with its integer value
(Atoi fails with a range error on values outside int64, so n always fits
int64 and a longer numeric string lands in invalid); a string that fails
Atoi but parses as an RFC 1123 date, carrying the value of time.Until at
the moment of the call in nanoseconds (time.Sub saturates at the int64
bounds rather than wrapping, so untilDate is that saturated value); or a
string neither parse accepts. -/
inductive RetryAfterHeader where
  | empty : RetryAfterHeader
  | intVal (n : Int) : RetryAfterHeader
  | httpDate (untilDate : Int) : RetryAfterHeader
  | invalid : RetryAfterHeader
deriving DecidableEq, Repr

/-- Embedding of parseRetryAfter, src/http_client.go lines 82 to 101.
Empty string gives 0; an integer n gives time.Duration(n) * time.Second,
a product formed in int64 and hence wrapping when n seconds exceeds the
int64 range in nanoseconds; a parsed date gives its remaining time when
positive; everything else gives 0. -/
def parseRetryAfter : RetryAfterHeader → Int
  | .empty => 0
  | .intVal n => wrapInt64 (n * second)
  | .httpDate untilDate => if untilDate > 0 then untilDate else 0
  | .invalid => 0

/-- The wait computation of DoWithRetry for an attempt that received a
response, src/http_client.go lines 37 to 52: the parsed Retry-After value,
replaced by the exponential backoff 2 ^ attempt seconds when it is 0 — a
duration product likewise formed in wrapping int64 — then clamped down to
maxRetryAfter; the clamp only lowers values above the ceiling, so a
wrapped negative value passes through and time.Sleep treats it as zero. -/
def computeWait (h : RetryAfterHeader) (attempt : Nat) : Int :=
  let w0 := parseRetryAfter h
  let w1 := if w0 = 0 then wrapInt64 ((2 ^ attempt : Int) * second) else w0
  if w1 > maxRetryAfter then maxRetryAfter else w1

/-- Helper: wrapping is the identity on values inside the int64 range. -/
theorem wrapInt64_eq_self (x : Int) (h1 : -int64Bound ≤ x)
    (h2 : x < int64Bound) : wrapInt64 x = x := by
  unfold wrapInt64
  unfold int64Bound at h1 h2 ⊢
  omega

/-- Transport-level error, modelling a non-nil Go error value. -/
structure GoError where
  msg : String
deriving DecidableEq, Repr

/-- The part of an http.Response that DoWithRetry inspects: the status
code and the Retry-After header. -/
structure HttpResponse where
  statusCode : Int
  retryAfter : RetryAfterHeader
deriving DecidableEq, Repr

/-- Observable outcome of DoWithRetry: how many transport calls were made,
the sleep durations performed between attempts in order, and the final
return value, where Except.ok r models (resp, nil) and Except.error e
models (nil, err). -/
structure RetryTrace where
  attempts : Nat
  waits : List Int
  result : Except GoError HttpResponse
deriving Repr

/-- The loop of DoWithRetry, src/http_client.go lines 20 to 55, in
recursive form. The transport argument gives the result of client.Do on
the n-th attempt (the request is cloned per attempt, so attempts are
independent). The remaining argument is maxRetries minus the current
attempt index, so the Go guard attempt >= maxRetries is exactly remaining
= 0; with the budget exhausted the loop returns resp and err unchanged,
whatever they are, which the 0 case states directly. On a transport error
resp is nil, so waitDuration keeps its zero value and the backoff
applies, which coincides with computeWait on an absent header. -/
def doWithRetryAux (transport : Nat → Except GoError HttpResponse) :
    Nat → Nat → RetryTrace
  | attempt, 0 =>
    match transport attempt with
    | .ok resp => ⟨1, [], .ok resp⟩
    | .error e => ⟨1, [], .error e⟩
  | attempt, remaining + 1 =>
    match transport attempt with
    | .ok resp =>
      if shouldRetry resp.statusCode then
        let w := computeWait resp.retryAfter attempt
        let rest := doWithRetryAux transport (attempt + 1) remaining
        ⟨rest.attempts + 1, w :: rest.waits, rest.result⟩
      else
        ⟨1, [], .ok resp⟩
    | .error _e =>
      let w := computeWait RetryAfterHeader.empty attempt
      let rest := doWithRetryAux transport (attempt + 1) remaining
      ⟨rest.attempts + 1, w :: rest.waits, rest.result⟩

/-- Embedding of DoWithRetry, src/http_client.go lines 16 to 58: run the
attempt loop starting at attempt 0 with the full retry budget. -/
def DoWithRetry (transport : Nat → Except GoError HttpResponse) : RetryTrace :=
  doWithRetryAux transport 0 maxRetries

/-- C4: shouldRetry accepts exactly 403, 429 and the 5xx codes other than
501; every other code, in particular every 2xx, every other 4xx and 501,
is not retryable. -/
theorem shouldRetry_characterization (s : Int) :
    shouldRetry s = true ↔ (s = 403 ∨ s = 429 ∨ (500 ≤ s ∧ s ≤ 599 ∧ s ≠ 501)) := by
  unfold shouldRetry
  split_ifs with h1 h2 h3
  · simp only [true_iff]
    exact Or.inl h1
  · simp only [true_iff]
    exact Or.inr (Or.inl h2)
  · simp only [true_iff]
    exact Or.inr (Or.inr ⟨h3.1, by omega, h3.2.2⟩)
  · simp only [Bool.false_eq_true, false_iff]
    push_neg
    refine ⟨h1, h2, ?_⟩
    intro h5 h6
    by_contra h7
    exact h3 ⟨h5, by omega, h7⟩

/-- Transcription of the wait-duration hint of the spec, section 4.3: the
delay header parsed as an integer number of seconds, else as an HTTP date
whose remaining time counts only when the date lies in the future; a past
or unparseable date and an absent header yield 0. Written from the words
of the spec, to be compared with parseRetryAfter. -/
def specRetryHint : RetryAfterHeader → Int
  | .intVal n => n * second
  | .httpDate untilDate => if untilDate > 0 then untilDate else 0
  | .empty => 0
  | .invalid => 0

/-- Transcription of the wait-duration computation of the spec, section
4.3: when the hint yields 0 fall back to 2 ^ attemptIndex seconds with a
zero-based attempt index, and clamp the result from either source down to
the 60 second ceiling, never extending it. Written from the words of the
spec, to be compared with computeWait. -/
def specWaitDuration (h : RetryAfterHeader) (attemptIndex : Nat) : Int :=
  let hint := specRetryHint h
  let w := if hint = 0 then (2 ^ attemptIndex : Int) * second else hint
  if w > 60 * second then 60 * second else w

/-- C6 counterexample: a Retry-After header of 9300000000 seconds, a
value strconv.Atoi accepts, makes the int64 product
time.Duration(9300000000) * time.Second wrap to the negative duration
-9146744073709551616 ns; the code neither replaces it by backoff (it is
not 0) nor clamps it (it is not above the ceiling), so the computed wait
is negative where the claim requires the parsed value clamped down to 60
seconds. -/
theorem computeWait_int64_overflow_counterexample :
    computeWait (RetryAfterHeader.intVal 9300000000) 0 = -9146744073709551616 ∧
    computeWait (RetryAfterHeader.intVal 9300000000) 0 < 0 ∧
    specWaitDuration (RetryAfterHeader.intVal 9300000000) 0 = 60 * second ∧
    ¬ (computeWait (RetryAfterHeader.intVal 9300000000) 0 =
       specWaitDuration (RetryAfterHeader.intVal 9300000000) 0) := by
  decide

/-- C6 amended: the wait duration the code computes before each retry
agrees with the computation the spec describes — integer seconds, else
future-date remainder with past or unparseable dates and absent header
giving 0, exponential backoff 2 ^ attemptIndex seconds when the hint is
0, and a 60 second ceiling that only ever lowers the value — for every
attempt index the loop reaches (attemptIndex < maxRetries) and whenever
an integer header denotes at most 9223372036 seconds in magnitude, the
largest whole second count whose nanosecond value fits int64; above that
the int64 product wraps, and a negative wrapped wait passes the ceiling
check unchanged and is slept as zero. -/
theorem computeWait_matches_spec_no_overflow (h : RetryAfterHeader) (a : Nat)
    (ha : a < maxRetries)
    (hn : ∀ n, h = RetryAfterHeader.intVal n → n.natAbs ≤ 9223372036) :
    computeWait h a = specWaitDuration h a := by
  have ha3 : a < 3 := by simpa [maxRetries] using ha
  have hb : wrapInt64 ((2 ^ a : Int) * second) = (2 ^ a : Int) * second := by
    interval_cases a <;> decide
  cases h with
  | empty =>
    simp only [computeWait, specWaitDuration, specRetryHint, parseRetryAfter,
      maxRetryAfter, hb]
  | intVal n =>
    have hr := hn n rfl
    have hid : wrapInt64 (n * second) = n * second := by
      refine wrapInt64_eq_self _ ?_ ?_ <;>
        · unfold second int64Bound
          omega
    simp only [computeWait, specWaitDuration, specRetryHint, parseRetryAfter,
      maxRetryAfter, hid, hb]
  | httpDate d =>
    simp only [computeWait, specWaitDuration, specRetryHint, parseRetryAfter,
      maxRetryAfter, hb]
  | invalid =>
    simp only [computeWait, specWaitDuration, specRetryHint, parseRetryAfter,
      maxRetryAfter, hb]

/-- Witness for the amended C6 at a 5 second integer header on the first
retry. -/
theorem computeWait_matches_spec_no_overflow_witness :
    computeWait (RetryAfterHeader.intVal 5) 0 =
      specWaitDuration (RetryAfterHeader.intVal 5) 0 :=
  computeWait_matches_spec_no_overflow (RetryAfterHeader.intVal 5) 0 (by decide)
    (fun n hn => by
      injection hn with h2
      rw [← h2]
      decide)

/-- Helper: when every transport attempt yields a response with a
retryable status, the loop uses its whole budget and ends on the last
attempt, returning its response. -/
theorem doWithRetryAux_all_retryable (t : Nat → Except GoError HttpResponse)
    (h : ∀ i, ∃ r, t i = .ok r ∧ shouldRetry r.statusCode = true) :
    ∀ remaining attempt,
      (doWithRetryAux t attempt remaining).attempts = remaining + 1 ∧
      (doWithRetryAux t attempt remaining).result = t (attempt + remaining) := by
  intro remaining
  induction remaining with
  | zero =>
    intro attempt
    obtain ⟨r, hr, sr⟩ := h attempt
    rw [doWithRetryAux, hr]
    exact ⟨rfl, hr.symm⟩
  | succ n ih =>
    intro attempt
    obtain ⟨r, hr, sr⟩ := h attempt
    have hrec := ih (attempt + 1)
    rw [doWithRetryAux, hr]
    simp only [sr, if_true]
    refine ⟨by rw [hrec.1], ?_⟩
    rw [hrec.2]
    congr 1
    omega

/-- Helper: when every transport attempt fails at transport level, the
loop also uses its whole budget, sleeping the backoff before each retry,
and returns the last error. -/
theorem doWithRetryAux_all_errors (t : Nat → Except GoError HttpResponse)
    (h : ∀ i, ∃ e, t i = .error e) :
    ∀ remaining attempt,
      (doWithRetryAux t attempt remaining).attempts = remaining + 1 ∧
      (doWithRetryAux t attempt remaining).waits =
        (List.range remaining).map
          (fun i => computeWait RetryAfterHeader.empty (attempt + i)) ∧
      (doWithRetryAux t attempt remaining).result = t (attempt + remaining) := by
  intro remaining
  induction remaining with
  | zero =>
    intro attempt
    obtain ⟨e, he⟩ := h attempt
    rw [doWithRetryAux, he]
    exact ⟨rfl, rfl, he.symm⟩
  | succ n ih =>
    intro attempt
    obtain ⟨e, he⟩ := h attempt
    have hrec := ih (attempt + 1)
    have hw : (List.range (n + 1)).map
        (fun i => computeWait RetryAfterHeader.empty (attempt + i)) =
        computeWait RetryAfterHeader.empty attempt ::
          (List.range n).map
            (fun i => computeWait RetryAfterHeader.empty (attempt + 1 + i)) := by
      rw [List.range_succ_eq_map, List.map_cons, List.map_map, Nat.add_zero]
      congr 1
      apply List.map_congr_left
      intro a _
      simp only [Function.comp_apply, Nat.succ_eq_add_one]
      congr 1
      omega
    rw [doWithRetryAux, he]
    refine ⟨by simpa using hrec.1, ?_, by rw [hrec.2.2]; congr 1; omega⟩
    rw [hw]
    simpa using hrec.2.1

/-- C5: against an endpoint whose every response carries a retryable
status, DoWithRetry performs exactly 1 + maxRetries transport attempts
(4 in total) and then returns the response of the last attempt as-is with
a nil error, its status still retryable. -/
theorem doWithRetry_exhausts_on_retryable (t : Nat → Except GoError HttpResponse)
    (h : ∀ i, ∃ r, t i = .ok r ∧ shouldRetry r.statusCode = true) :
    (DoWithRetry t).attempts = 1 + maxRetries ∧
    (DoWithRetry t).result = t maxRetries ∧
    ∃ r, (DoWithRetry t).result = .ok r ∧ shouldRetry r.statusCode = true := by
  have hall := doWithRetryAux_all_retryable t h maxRetries 0
  obtain ⟨rl, hl, sl⟩ := h maxRetries
  have hres : (DoWithRetry t).result = t maxRetries := by
    rw [DoWithRetry, hall.2, Nat.zero_add]
  refine ⟨by rw [DoWithRetry, hall.1, Nat.add_comm], hres, rl, ?_, sl⟩
  rw [hres, hl]

/-- Endpoint that always answers 429 with no Retry-After header. -/
def alwaysRateLimited : Nat → Except GoError HttpResponse :=
  fun _ => .ok ⟨429, RetryAfterHeader.empty⟩

/-- Witness for C5 at the concrete endpoint that always answers 429. -/
theorem doWithRetry_exhausts_on_retryable_witness :
    (DoWithRetry alwaysRateLimited).attempts = 1 + maxRetries ∧
    (DoWithRetry alwaysRateLimited).result = alwaysRateLimited maxRetries ∧
    ∃ r, (DoWithRetry alwaysRateLimited).result = .ok r ∧
      shouldRetry r.statusCode = true :=
  doWithRetry_exhausts_on_retryable alwaysRateLimited
    (fun _ => ⟨⟨429, RetryAfterHeader.empty⟩, rfl, by decide⟩)

/-- A fixed transport-level failure, as from a refused connection. -/
def connectionRefused : GoError := ⟨"connection refused"⟩

/-- Transport whose every attempt fails at transport level: client.Do
returns a nil response and a non-nil error on each call. -/
def alwaysTransportError : Nat → Except GoError HttpResponse :=
  fun _ => .error connectionRefused

/-- C2 counterexample: on a transport that fails at transport level on
its very first call, DoWithRetry does not stop at one attempt with no
sleeping, contradicting the claim that a transport-level error is
returned immediately without retrying. -/
theorem doWithRetry_transport_error_counterexample :
    alwaysTransportError 0 = Except.error connectionRefused ∧
    ¬ ((DoWithRetry alwaysTransportError).attempts = 1 ∧
       (DoWithRetry alwaysTransportError).waits = []) := by
  refine ⟨rfl, ?_⟩
  intro hcl
  have h4 : (DoWithRetry alwaysTransportError).attempts = 4 := by decide
  omega

/-- C2 amended: a transport-level error is treated like a retryable
response: DoWithRetry sleeps the exponential backoff (1, 2 and 4 seconds,
since a nil response leaves no Retry-After hint) and re-attempts, and only
after 1 + maxRetries attempts returns the last transport error. -/
theorem doWithRetry_transport_error_retries (t : Nat → Except GoError HttpResponse)
    (h : ∀ i, ∃ e, t i = .error e) :
    (DoWithRetry t).attempts = 1 + maxRetries ∧
    (DoWithRetry t).waits = [second, 2 * second, 4 * second] ∧
    (DoWithRetry t).result = t maxRetries := by
  have hall := doWithRetryAux_all_errors t h maxRetries 0
  refine ⟨by rw [DoWithRetry, hall.1, Nat.add_comm], ?_,
    by rw [DoWithRetry, hall.2.2, Nat.zero_add]⟩
  rw [DoWithRetry, hall.2.1]
  decide

/-- Witness for the amended C2 at the concrete always-failing transport. -/
theorem doWithRetry_transport_error_retries_witness :
    (DoWithRetry alwaysTransportError).attempts = 1 + maxRetries ∧
    (DoWithRetry alwaysTransportError).waits = [second, 2 * second, 4 * second] ∧
    (DoWithRetry alwaysTransportError).result = alwaysTransportError maxRetries :=
  doWithRetry_transport_error_retries alwaysTransportError
    (fun _ => ⟨connectionRefused, rfl⟩)

/-- The fields of golang.org/x/oauth2 Token read by this code: the access
token string, the token type, and the expiry instant in nanoseconds since
the epoch, with none modelling the zero time.Time (IsZero true, meaning
the token does not expire). -/
structure OAuthToken where
  accessToken : String
  tokenType : String
  expiry : Option Int
deriving DecidableEq, Repr

/-- The default expiry guard of golang.org/x/oauth2: a token counts as
expired starting 10 seconds before its stated expiry. The guard field of
Token is unexported and left zero by this repository, so the 10 second
default always applies. -/
def defaultExpiryDelta : Int := 10 * second

/-- The expired method of golang.org/x/oauth2 Token: false when the
expiry is the zero time, else true exactly when the expiry minus the
10 second guard lies strictly before now. -/
def tokenExpired (t : OAuthToken) (now : Int) : Bool :=
  match t.expiry with
  | none => false
  | some e => decide (e - defaultExpiryDelta < now)

/-- The Valid method of golang.org/x/oauth2 Token on a possibly nil
token pointer: non-nil, with a non-empty access token, and not expired. -/
def tokenValid (t : Option OAuthToken) (now : Int) : Bool :=
  match t with
  | none => false
  | some tok => decide (¬ tok.accessToken = "") && !(tokenExpired tok now)

/-- The mutable state of a TokenSource, src/github/token.go lines 108 to
117: the renewal margin tokenExpiryDelta and the cached token pointer
(none models nil). The immutable identity fields play no part in the
cache logic and are omitted here. -/
structure TokenSourceState where
  tokenExpiryDelta : Int
  token : Option OAuthToken
deriving DecidableEq, Repr

/-- Observable outcome of one TokenSource.Token() call: the state after
the call, how many times GenerateOAuthTokenFromApp was invoked, the token
pointer returned, and the error returned (none models nil, and the code
returns a nil error on every path). -/
structure TokenResult where
  newState : TokenSourceState
  mintCalls : Nat
  returned : Option OAuthToken
  errorOut : Option GoError
deriving DecidableEq, Repr

/-- The regeneration tail of TokenSource.Token(), src/github/token.go
lines 134 to 144: clear the cache, call GenerateOAuthTokenFromApp (its
outcome is the mint argument), store the new token on success, and return
ts.token with a nil error in both cases, so a failed mint returns a nil
token and a nil error while the error is only logged. -/
def tokenSourceRegen (ts : TokenSourceState) (mint : Except GoError OAuthToken) :
    TokenResult :=
  match mint with
  | .ok newTok => ⟨{ ts with token := some newTok }, 1, some newTok, none⟩
  | .error _ => ⟨{ ts with token := none }, 1, none, none⟩

/-- Embedding of TokenSource.Token(), src/github/token.go lines 119 to
145, for one call at instant now whose potential mint outcome is mint:
when the cached token is Valid and either never expires or its expiry
minus the renewal margin has not yet passed, return the cached token
unchanged; otherwise regenerate. Time.Round(0) only strips the monotonic
clock reading and is the identity here. -/
def tokenSourceToken (ts : TokenSourceState) (now : Int)
    (mint : Except GoError OAuthToken) : TokenResult :=
  match ts.token with
  | none => tokenSourceRegen ts mint
  | some tok =>
    if tokenValid (some tok) now then
      match tok.expiry with
      | none => ⟨ts, 0, some tok, none⟩
      | some e =>
        if e - ts.tokenExpiryDelta < now then tokenSourceRegen ts mint
        else ⟨ts, 0, some tok, none⟩
    else
      tokenSourceRegen ts mint

/-- A failing mint outcome, as from a rejected credential exchange. -/
def mintFailure : Except GoError OAuthToken := .error ⟨"mint failed"⟩

/-- A token source with an empty cache and a zero renewal margin. -/
def emptyCacheSource : TokenSourceState := ⟨0, none⟩

/-- C1: evaluation of TokenSource.Token() at an empty cache whose mint
attempt fails: the cache is left empty as claimed, but the returned error
is nil, not the mint error, so the caller receives a nil token together
with a nil error and the claim that a non-nil error is surfaced fails. -/
theorem tokenSource_mint_failure_returns_nil_nil :
    (tokenSourceToken emptyCacheSource 0 mintFailure).newState.token = none ∧
    (tokenSourceToken emptyCacheSource 0 mintFailure).returned = none ∧
    (tokenSourceToken emptyCacheSource 0 mintFailure).errorOut = none ∧
    (tokenSourceToken emptyCacheSource 0 mintFailure).mintCalls = 1 := by
  refine ⟨rfl, rfl, rfl, rfl⟩

/-- A cached token expiring 5 seconds from instant 0. -/
def cachedTok : OAuthToken := ⟨"tok", "Bearer", some (5 * second)⟩

/-- A source holding cachedTok with a renewal margin of zero. -/
def shortMarginSource : TokenSourceState := ⟨0, some cachedTok⟩

/-- A successful mint outcome producing a fresh one hour token. -/
def freshMint : Except GoError OAuthToken :=
  .ok ⟨"new-token", "Bearer", some (3600 * second)⟩

/-- C9 counterexample: with a renewal margin of zero, a cached non-empty
token whose expiry lies 5 seconds in the future — strictly more than the
margin — is nonetheless regenerated, because the Valid method of the
oauth2 library discards tokens within 10 seconds of expiry: the mint
count is 1, not 0, and the returned token is not the cached one. -/
theorem tokenSource_renewal_margin_counterexample :
    shortMarginSource.token = some cachedTok ∧
    cachedTok.accessToken ≠ "" ∧
    cachedTok.expiry = some (5 * second) ∧
    (0 : Int) + shortMarginSource.tokenExpiryDelta < 5 * second ∧
    ¬ ((tokenSourceToken shortMarginSource 0 freshMint).mintCalls = 0 ∧
       (tokenSourceToken shortMarginSource 0 freshMint).returned = some cachedTok) := by
  decide

/-- C9 amended: a cached, non-empty token whose expiry is absent, or lies
both more than the renewal margin and at least the 10 second oauth2
validity guard in the future, is returned exactly as cached with a nil
error, without invoking mint and without any change to the source state,
so repeated such calls keep the mint count at 0. -/
theorem tokenSource_fresh_cached_token_noop (ts : TokenSourceState) (now : Int)
    (mint : Except GoError OAuthToken) (tok : OAuthToken)
    (hcache : ts.token = some tok)
    (hnonempty : ¬ tok.accessToken = "")
    (hfresh : tok.expiry = none ∨
      ∃ e, tok.expiry = some e ∧ now + ts.tokenExpiryDelta < e ∧
        now + defaultExpiryDelta ≤ e) :
    tokenSourceToken ts now mint = ⟨ts, 0, some tok, none⟩ := by
  have hvalid : tokenValid (some tok) now = true := by
    unfold tokenValid tokenExpired
    rcases hfresh with hz | ⟨e, he, _hm, h10⟩
    · simp [hz, hnonempty]
    · simp only [he, Bool.and_eq_true, decide_eq_true_eq, Bool.not_eq_true']
      exact ⟨hnonempty, by simp only [decide_eq_false_iff_not]; omega⟩
  unfold tokenSourceToken
  rw [hcache]
  rcases hfresh with hz | ⟨e, he, hm, _h10⟩
  · simp [hvalid, hz]
  · simp only [hvalid, if_true, he]
    rw [if_neg (by omega)]

/-- A cached token expiring one hour after instant 0. -/
def farFutureTok : OAuthToken := ⟨"tok", "Bearer", some (3600 * second)⟩

/-- A source holding farFutureTok with a one minute renewal margin. -/
def farFutureSource : TokenSourceState := ⟨60 * second, some farFutureTok⟩

/-- Witness for the amended C9: the one hour token is served from cache
even when the potential mint outcome would fail. -/
theorem tokenSource_fresh_cached_token_noop_witness :
    tokenSourceToken farFutureSource 0 mintFailure =
      ⟨farFutureSource, 0, some farFutureTok, none⟩ :=
  tokenSource_fresh_cached_token_noop farFutureSource 0 mintFailure farFutureTok rfl
    (by decide)
    (Or.inr ⟨3600 * second, rfl, by decide, by decide⟩)

/-- Abstraction of a private key string by the behaviour of the two
parses applied to it in NewTokenSource: the empty string; a non-empty
string in which pem.Decode finds no PEM block, so it returns a nil block;
a non-empty string with a PEM block whose bytes x509.ParsePKCS1PrivateKey
rejects; or a non-empty string with a PEM block holding a valid RSA key,
identified abstractly by a number. -/
inductive KeyMaterial where
  | emptyKey : KeyMaterial
  | noPemBlock : KeyMaterial
  | pemBadKey : KeyMaterial
  | pemValidKey (keyId : Nat) : KeyMaterial
deriving DecidableEq, Repr

/-- Outcome of a Go constructor call: a value with a nil error, a nil
value with a non-nil error, or a run-time panic from dereferencing a nil
pointer. -/
inductive ConstructResult (α : Type) where
  | ok (v : α) : ConstructResult α
  | err (e : GoError) : ConstructResult α
  | nilDerefPanic : ConstructResult α
deriving DecidableEq, Repr

/-- The immutable configuration of a constructed TokenSource,
src/github/token.go lines 108 to 117: identity fields, the parsed key and
the renewal margin. -/
structure TokenSourceConfig where
  appID : String
  installationID : String
  privateKey : Nat
  tokenExpiryDelta : Int
deriving DecidableEq, Repr

/-- Embedding of NewTokenSource, src/github/token.go lines 147 to 173:
reject an empty app id, installation id or key string with an error; then
pem.Decode the key, ignoring the possibility of a nil block, and read
block.Bytes — a nil pointer dereference when no PEM block was found; then
parse the block with x509.ParsePKCS1PrivateKey, returning its error on
failure and the constructed source on success. -/
def NewTokenSource (appID : String) (installationID : String)
    (privateKey : KeyMaterial) (tokenExpiryDelta : Int) :
    ConstructResult TokenSourceConfig :=
  if appID = "" then .err ⟨"github app id must be provided"⟩
  else if installationID = "" then
    .err ⟨"github app installation id must be provided"⟩
  else
    match privateKey with
    | .emptyKey => .err ⟨"github app private key must be provided"⟩
    | .noPemBlock => .nilDerefPanic
    | .pemBadKey => .err ⟨"x509: failed to parse private key"⟩
    | .pemValidKey keyId =>
      .ok ⟨appID, installationID, keyId, tokenExpiryDelta⟩

/-- C7: evaluation of NewTokenSource at a non-empty app id, a non-empty
installation id and non-empty key material that is not PEM encoded: the
call dereferences the nil block returned by pem.Decode and panics instead
of returning a configuration error, while key material that is PEM
encoded but fails key parsing is rejected with an error as claimed. -/
theorem newTokenSource_non_pem_key_panics :
    NewTokenSource "12345" "678" KeyMaterial.noPemBlock 0 =
      ConstructResult.nilDerefPanic ∧
    (NewTokenSource "12345" "678" KeyMaterial.pemBadKey 0 =
      ConstructResult.err ⟨"x509: failed to parse private key"⟩) := by
  refine ⟨rfl, rfl⟩

/-- A constructed MultiTokenSource, src/github/token.go lines 43 to 48:
the fixed member sources. The seeded rng, the mutex and the optional
statsd client carry no information relevant to the properties stated
here. -/
structure MultiTokenSourcePool where
  sources : List TokenSourceConfig
deriving DecidableEq, Repr

/-- Embedding of NumSources, src/github/token.go lines 71 to 73. -/
def numSources (m : MultiTokenSourcePool) : Nat := m.sources.length

/-- Embedding of NewMultiTokenSource, src/github/token.go lines 77 to
86: zero sources is a construction error, otherwise the pool holds the
given sources. -/
def NewMultiTokenSource (sources : List TokenSourceConfig) :
    Except GoError MultiTokenSourcePool :=
  if sources.length = 0 then
    .error ⟨"at least one token source must be provided"⟩
  else .ok ⟨sources⟩

/-- AppConfig, src/github/token.go lines 32 to 36, with the key string
abstracted by its parse behaviour. -/
structure AppConfig where
  appID : String
  installationID : String
  privateKey : KeyMaterial
deriving DecidableEq, Repr

/-- The construction loop of NewMultiTokenSourceFromConfigs,
src/github/token.go lines 96 to 103: build one TokenSource per config in
order, stopping at the first failure with a wrapped error; a panic inside
NewTokenSource propagates. -/
def buildSources (configs : List AppConfig) (tokenExpiryDelta : Int) :
    ConstructResult (List TokenSourceConfig) :=
  match configs with
  | [] => .ok []
  | cfg :: rest =>
    match NewTokenSource cfg.appID cfg.installationID cfg.privateKey
        tokenExpiryDelta with
    | .ok ts =>
      match buildSources rest tokenExpiryDelta with
      | .ok rest' => .ok (ts :: rest')
      | .err e => .err e
      | .nilDerefPanic => .nilDerefPanic
    | .err e => .err ⟨"failed to create token source: " ++ e.msg⟩
    | .nilDerefPanic => .nilDerefPanic

/-- Embedding of NewMultiTokenSourceFromConfigs, src/github/token.go
lines 91 to 106: zero configs is a construction error, otherwise the
sources built from the configs are handed to NewMultiTokenSource. -/
def NewMultiTokenSourceFromConfigs (configs : List AppConfig)
    (tokenExpiryDelta : Int) : ConstructResult MultiTokenSourcePool :=
  if configs.length = 0 then
    .err ⟨"at least one app config must be provided"⟩
  else
    match buildSources configs tokenExpiryDelta with
    | .ok sources =>
      match NewMultiTokenSource sources with
      | .ok pool => .ok pool
      | .error e => .err e
    | .err e => .err e
    | .nilDerefPanic => .nilDerefPanic

/-- Helper: a pool built by NewMultiTokenSource has at least one
member. -/
theorem newMultiTokenSource_ok_length (sources : List TokenSourceConfig)
    (pool : MultiTokenSourcePool)
    (h : NewMultiTokenSource sources = Except.ok pool) :
    1 ≤ numSources pool := by
  unfold NewMultiTokenSource at h
  by_cases hlen : sources.length = 0
  · rw [if_pos hlen] at h
    simp at h
  · rw [if_neg hlen] at h
    injection h with h2
    rw [← h2]
    show 1 ≤ sources.length
    omega

/-- Helper: a pool built by NewMultiTokenSourceFromConfigs has at least
one member. -/
theorem newMultiTokenSourceFromConfigs_ok_length (configs : List AppConfig)
    (tokenExpiryDelta : Int) (pool : MultiTokenSourcePool)
    (h : NewMultiTokenSourceFromConfigs configs tokenExpiryDelta =
      ConstructResult.ok pool) :
    1 ≤ numSources pool := by
  unfold NewMultiTokenSourceFromConfigs at h
  by_cases hlen : configs.length = 0
  · rw [if_pos hlen] at h
    simp at h
  · rw [if_neg hlen] at h
    cases hbuild : buildSources configs tokenExpiryDelta with
    | ok sources =>
      rw [hbuild] at h
      dsimp only [] at h
      cases hpool : NewMultiTokenSource sources with
      | ok pool' =>
        rw [hpool] at h
        injection h with h2
        rw [← h2]
        exact newMultiTokenSource_ok_length sources pool' hpool
      | error e =>
        rw [hpool] at h
        simp at h
    | err e =>
      rw [hbuild] at h
      simp at h
    | nilDerefPanic =>
      rw [hbuild] at h
      simp at h

/-- C8: NewMultiTokenSource on an empty source list and
NewMultiTokenSourceFromConfigs on an empty config list both return a
non-nil error together with a nil pool, and every pool either
constructor does return holds at least one source. -/
theorem multiPool_empty_rejected_and_pool_nonempty (tokenExpiryDelta : Int) :
    (∃ e, NewMultiTokenSource [] = Except.error e) ∧
    (∃ e, NewMultiTokenSourceFromConfigs [] tokenExpiryDelta =
      ConstructResult.err e) ∧
    (∀ sources pool, NewMultiTokenSource sources = Except.ok pool →
      1 ≤ numSources pool) ∧
    (∀ configs pool,
      NewMultiTokenSourceFromConfigs configs tokenExpiryDelta =
        ConstructResult.ok pool → 1 ≤ numSources pool) :=
  ⟨⟨⟨"at least one token source must be provided"⟩, rfl⟩,
   ⟨⟨"at least one app config must be provided"⟩, rfl⟩,
   fun sources pool h => newMultiTokenSource_ok_length sources pool h,
   fun configs pool h =>
     newMultiTokenSourceFromConfigs_ok_length configs tokenExpiryDelta pool h⟩

/-- A valid one member source list for the C8 witness. -/
def demoSources : List TokenSourceConfig := [⟨"12345", "678", 1, 0⟩]

/-- Witness for C8: empty input is rejected, and the pool built from one
source has one member. -/
theorem multiPool_empty_rejected_witness :
    (∃ e, NewMultiTokenSource [] = Except.error e) ∧
    1 ≤ numSources ⟨demoSources⟩ :=
  ⟨(multiPool_empty_rejected_and_pool_nonempty 0).1,
   (multiPool_empty_rejected_and_pool_nonempty 0).2.2.1 demoSources
     ⟨demoSources⟩ rfl⟩

/-- The selection step of MultiTokenSource.Token(), src/github/token.go
lines 52 to 60: with a single source index 0 is chosen without consulting
the rng; otherwise the call draws rand.Intn(n) under the mutex. The
rngDraw argument models the number the generator yields on this call;
reducing an arbitrary natural modulo n ranges over exactly the outcomes
Intn can produce. -/
def multiTokenSelect (n : Nat) (rngDraw : Nat) : Nat :=
  if n = 1 then 0 else rngDraw % n

/-- The member indices selected by the first k calls of Token() on a pool
of n sources when the generator draws the stream rng. -/
def selections (n : Nat) (rng : Nat → Nat) (k : Nat) : List Nat :=
  (List.range k).map (fun i => multiTokenSelect n (rng i))

/-- How many of the first k calls selected member j. -/
def selectionCount (n : Nat) (rng : Nat → Nat) (k : Nat) (j : Nat) : Nat :=
  (selections n rng k).count j

/-- C3: evaluation of the selection policy on a pool of n = 2 sources
over a realizable generator stream drawing 0 twice: after k = 2 calls, a
multiple of n, member 0 was selected twice and member 1 never, so the
members were not each selected k / n = 1 times; random per-call selection
does not guarantee the exact uniformity the claim states, which only the
round-robin counter asserted by the accompanying tests would provide. -/
theorem multiTokenSelect_uneven_distribution :
    selectionCount 2 (fun _ => 0) 2 0 = 2 ∧
    selectionCount 2 (fun _ => 0) 2 1 = 0 ∧
    ¬ (selectionCount 2 (fun _ => 0) 2 1 = 2 / 2) := by
  decide

/-- The byte value of the full stop character; Go appends three of them
as the literal "...". -/
def dotByte : Nat := 46

/-- Embedding of truncateString, src/github/logging.go lines 27 to 32.
Go strings are byte slices and len and slicing count bytes, so a string
is modelled as its list of byte values; maxLen is restricted to the
naturals as the claim restricts it (a negative maxLen would make the Go
slice expression panic). -/
def truncateString (s : List Nat) (maxLen : Nat) : List Nat :=
  if s.length ≤ maxLen then s
  else s.take maxLen ++ [dotByte, dotByte, dotByte]

/-- C10: truncateString returns its input unchanged when the byte length
is at most maxLen, and otherwise returns exactly the first maxLen bytes
followed by three full stops, a list of length maxLen + 3 whose first
maxLen bytes are a prefix of the input. -/
theorem truncateString_spec (s : List Nat) (maxLen : Nat) :
    (s.length ≤ maxLen → truncateString s maxLen = s) ∧
    (maxLen < s.length →
      truncateString s maxLen = s.take maxLen ++ [dotByte, dotByte, dotByte] ∧
      (truncateString s maxLen).length = maxLen + 3 ∧
      (truncateString s maxLen).take maxLen = s.take maxLen ∧
      s.take maxLen <+: s) := by
  constructor
  · intro h
    simp [truncateString, h]
  · intro h
    have hne : ¬ s.length ≤ maxLen := by omega
    have htake : (s.take maxLen).length = maxLen := by
      simp only [List.length_take]
      omega
    refine ⟨by simp [truncateString, hne], ?_, ?_, List.take_prefix _ _⟩
    · simp only [truncateString, hne, if_false, List.length_append,
        List.length_take]
      simp
      omega
    · simp only [truncateString, hne, if_false]
      rw [List.take_append_eq_append_take, htake, List.take_take]
      simp

/-- Witness for C10 at the five byte input hello with maxLen 2. -/
theorem truncateString_spec_witness :
    truncateString [104, 101, 108, 108, 111] 2 =
      ([104, 101, 108, 108, 111] : List Nat).take 2 ++
        [dotByte, dotByte, dotByte] ∧
    (truncateString [104, 101, 108, 108, 111] 2).length = 2 + 3 := by
  have h := (truncateString_spec [104, 101, 108, 108, 111] 2).2 (by decide)
  exact ⟨h.1, h.2.1⟩

end Goblet
